import Mathlib

/-!
Verification of the ownership-and-borrowing demonstration samples of the
repository (rust-by-example): the error-handling functions, the
reference-counting, interior-mutability and mutual-exclusion primitives,
and the demonstration drivers that exercise them.

Machine integers are modelled as Int with the explicit i32 bounds; a Rust
program outcome is ok / err / panicked.  The standard-library primitives
(Rc, Arc, RefCell, Mutex, the borrow checker) are not part of the
repository's sources: they are modelled from the spec, as noted on each
definition.  The demonstration drivers are translated statement by
statement from the repository's main functions.
-/

namespace RustByExample

/-- Smallest value of Rust's i32 type. -/
def i32Min : Int := -(2 ^ 31)

/-- Largest value of Rust's i32 type. -/
def i32Max : Int := 2 ^ 31 - 1

/-- Outcome of a Rust computation: a Result value (Ok / Err) or a panic
that terminates the process abnormally. -/
inductive RustResult (α : Type) where
  | ok (v : α)
  | err (e : String)
  | panicked (msg : String)
deriving Repr, DecidableEq

/-- The question-mark operator: propagate Err, propagate a panic. -/
def RustResult.bind {α β : Type} : RustResult α → (α → RustResult β) → RustResult β
  | .ok v, f => f v
  | .err e, _ => .err e
  | .panicked m, _ => .panicked m

/-- Result::unwrap — panics on Err. -/
def RustResult.unwrap {α : Type} : RustResult α → RustResult α
  | .ok v => .ok v
  | .err e => .panicked ("called Result::unwrap on an Err value: " ++ e)
  | .panicked m => .panicked m

/-- Result::expect — like unwrap with a custom panic message. -/
def RustResult.expect {α : Type} (r : RustResult α) (msg : String) : RustResult α :=
  match r with
  | .ok v => .ok v
  | .err _ => .panicked msg
  | .panicked m => .panicked m

/-- Result::map — transform the Ok value, keep Err unchanged. -/
def RustResult.map {α β : Type} (r : RustResult α) (f : α → β) : RustResult β :=
  match r with
  | .ok v => .ok (f v)
  | .err e => .err e
  | .panicked m => .panicked m

/-- Result::map_err — transform the Err value, keep Ok unchanged. -/
def RustResult.map_err {α : Type} (r : RustResult α) (f : String → String) : RustResult α :=
  match r with
  | .ok v => .ok v
  | .err e => .err (f e)
  | .panicked m => .panicked m

/-- src/20-error-handling/error-handling.rs, divide: Err on a zero
divisor, otherwise Rust's i32 division, which truncates toward zero and
panics on the single overflowing input i32::MIN / -1. -/
def divide (x y : Int) : RustResult Int :=
  if y = 0 then .err "Division by zero"
  else if x = i32Min ∧ y = -1 then .panicked "attempt to divide with overflow"
  else .ok (Int.tdiv x y)

/-- i32::checked_mul: the exact product when it fits in i32, none otherwise. -/
def checked_mul (a b : Int) : Option Int :=
  if i32Min ≤ a * b ∧ a * b ≤ i32Max then some (a * b) else none

/-- src/20-error-handling/error-handling.rs, multiply: checked
multiplication, Err on overflow. -/
def multiply (a b : Int) : RustResult Int :=
  match checked_mul a b with
  | some v => .ok v
  | none => .err "Integer overflow on multiplication"

/-- src/20-error-handling/error-handling.rs, divide_and_multiply: chains
divide and multiply with the question-mark operator. -/
def divide_and_multiply (i j k : Int) : RustResult Int :=
  (divide i j).bind fun division =>
    (multiply division k).bind fun product =>
      .ok product

/-- Evaluate a subexpression for its effect: a panic inside it aborts the
program, an Ok or Err value is merely observed and control continues. -/
def seqR {α : Type} (r : RustResult α) (k : RustResult Unit) : RustResult Unit :=
  match r with
  | .panicked m => .panicked m
  | _ => k

/-- src/20-error-handling/error-handling.rs, main, translated statement by
statement: the match / if-let observations, the let-else early return on
divide 20 4, the Result-method observations, the question-mark call of
divide_and_multiply 20 4 2, the unwrap / unwrap_or / unwrap_or_else /
expect calls, and the map / map_err observations. -/
def errorHandlingMain : RustResult Unit :=
  seqR (divide 10 2) <|
  seqR (divide 10 2) <|
  match divide 20 4 with
  | .panicked m => .panicked m
  | .err _ => .err "let else encountered an error"
  | .ok _division_str =>
    seqR (divide 15 3) <|
    seqR (divide 10 0) <|
    seqR (divide 10 2) <|
    seqR (divide 10 0) <|
    (divide_and_multiply 20 4 2).bind fun _final_result =>
    seqR (divide 10 2).unwrap <|
    seqR (divide 10 2) <|
    seqR (divide 10 0) <|
    seqR ((divide 10 2).expect "Division should succeed") <|
    seqR ((divide 10 2).map fun val => val * 2) <|
    seqR ((divide 10 0).map_err fun e => "Custom error: " ++ e) <|
    .ok ()

/-- Modelled from the spec: InteriorMutable's runtime borrow flag, the
state machine Unborrowed / Shared(n) / Exclusive of the data model (the
RefCell implementation is a language facility, not part of src/).  In
every reachable state a shared index is the positive number of live
shared guards. -/
inductive BorrowState where
  | unborrowed
  | shared (n : Nat)
  | exclusive
deriving Repr, DecidableEq

/-- Number of guards (shared or exclusive) currently outstanding. -/
def outstandingGuards : BorrowState → Nat
  | .unborrowed => 0
  | .shared n => n
  | .exclusive => 1

/-- The four events on one InteriorMutable cell: the two acquisition
calls and the two guard destructions. -/
inductive CellOp where
  | borrow
  | borrowMut
  | dropShared
  | dropMut
deriving Repr, DecidableEq

/-- Modelled from the spec: one step of the borrow-flag state machine.
borrow fails only on an outstanding exclusive guard; borrow_mut fails on
any outstanding guard; a guard drop undoes its acquisition.  none is the
runtime borrow failure (for the two acquisition calls) or an impossible
event (for the drops). -/
def cellStep : CellOp → BorrowState → Option BorrowState
  | .borrow, .unborrowed => some (.shared 1)
  | .borrow, .shared n => some (.shared (n + 1))
  | .borrow, .exclusive => none
  | .borrowMut, .unborrowed => some .exclusive
  | .borrowMut, .shared _ => none
  | .borrowMut, .exclusive => none
  | .dropShared, .shared (n + 1) => some (if n = 0 then .unborrowed else .shared n)
  | .dropShared, .shared 0 => none
  | .dropShared, .unborrowed => none
  | .dropShared, .exclusive => none
  | .dropMut, .exclusive => some .unborrowed
  | .dropMut, _ => none

/-- States reachable from a freshly constructed cell by any sequence of
borrow / borrow_mut calls and guard drops. -/
inductive ReachableBorrow : BorrowState → Prop where
  | init : ReachableBorrow .unborrowed
  | step (op : CellOp) (s s' : BorrowState) :
      ReachableBorrow s → cellStep op s = some s' → ReachableBorrow s'

/-- An InteriorMutable cell: the borrow flag plus the wrapped payload. -/
structure RefCellState where
  borrowState : BorrowState
  value : Int
deriving Repr, DecidableEq

/-- RefCell::borrow on a cell. -/
def rcellBorrow (s : RefCellState) : Option RefCellState :=
  (cellStep .borrow s.borrowState).map fun b => { s with borrowState := b }

/-- RefCell::borrow_mut on a cell. -/
def rcellBorrowMut (s : RefCellState) : Option RefCellState :=
  (cellStep .borrowMut s.borrowState).map fun b => { s with borrowState := b }

/-- Dropping the exclusive guard of a cell. -/
def rcellDropMut (s : RefCellState) : Option RefCellState :=
  (cellStep .dropMut s.borrowState).map fun b => { s with borrowState := b }

/-- Dropping one shared guard of a cell. -/
def rcellDropShared (s : RefCellState) : Option RefCellState :=
  (cellStep .dropShared s.borrowState).map fun b => { s with borrowState := b }

/-- Writing through the exclusive guard: only possible while it is held. -/
def rcellWrite (f : Int → Int) (s : RefCellState) : Option RefCellState :=
  if s.borrowState = .exclusive then some { s with value := f s.value } else none

/-- Reading through a shared guard: only possible while one is held. -/
def rcellRead (s : RefCellState) : Option Int :=
  match s.borrowState with
  | .shared _ => some s.value
  | _ => none

/-- src/22-pointers/pointers.rs lines 148-150: RefCell::new(5), then the
statement *refcell1.borrow_mut() += 1 (acquire exclusive, write, drop the
temporary guard at the end of the statement), then read *refcell1.borrow()
(acquire shared, read, drop).  Returns the value printed. -/
def refcell22Scenario : Option Int :=
  (rcellBorrowMut ⟨.unborrowed, 5⟩).bind fun s1 =>
    (rcellWrite (· + 1) s1).bind fun s2 =>
      (rcellDropMut s2).bind fun s3 =>
        (rcellBorrow s3).bind fun s4 =>
          rcellRead s4

/-- The two states of the Mutex lock flag. -/
inductive LockState where
  | unlocked
  | locked
deriving Repr, DecidableEq

/-- A Mutex: the lock flag plus the protected payload. -/
structure MutexState where
  lockState : LockState
  payload : Int
deriving Repr, DecidableEq

/-- The two events on a Mutex: a lock() call and a guard destruction. -/
inductive MutexEvent where
  | lock
  | guardDrop
deriving Repr, DecidableEq

/-- Modelled from the spec: the Mutex state machine.  lock() acquires a
free lock (none means the caller blocks, no transition occurs); dropping
the guard releases a held lock unconditionally, preserving the payload. -/
def mutexStep : MutexEvent → MutexState → Option MutexState
  | .lock, ⟨.unlocked, v⟩ => some ⟨.locked, v⟩
  | .lock, ⟨.locked, _⟩ => none
  | .guardDrop, ⟨.locked, v⟩ => some ⟨.unlocked, v⟩
  | .guardDrop, ⟨.unlocked, _⟩ => none

/-- Access to the payload through the guard: only possible while the
lock is held. -/
def guardModify (f : Int → Int) (s : MutexState) : Option MutexState :=
  match s with
  | ⟨.locked, v⟩ => some ⟨.locked, f v⟩
  | ⟨.unlocked, _⟩ => none

/-- src/22-pointers/pointers.rs lines 189-203: Mutex::new(5); lock;
*guard += 1; drop(guard); lock again and read the payload. -/
def mutexScenario : Option Int :=
  (mutexStep .lock ⟨.unlocked, 5⟩).bind fun s1 =>
    (guardModify (· + 1) s1).bind fun s2 =>
      (mutexStep .guardDrop s2).bind fun s3 =>
        (mutexStep .lock s3).bind fun s4 =>
          some s4.payload

/-- One reference-counted allocation: the immutable payload and its
strong count. -/
structure RcCell where
  payload : Int
  strong : Nat
deriving Repr, DecidableEq

/-- The heap of reference-counted allocations, indexed by position. -/
abbrev RcHeap := List RcCell

/-- A handle (an Rc value): the index of the allocation it aliases. -/
structure RcHandle where
  cell : Nat
deriving Repr, DecidableEq

/-- Replace the cell at index i by f applied to it; out-of-range indices
leave the heap unchanged. -/
def heapModify (h : RcHeap) (i : Nat) (f : RcCell → RcCell) : RcHeap :=
  match h, i with
  | [], _ => []
  | c :: t, 0 => f c :: t
  | c :: t, n + 1 => c :: heapModify t n f

/-- Modelled from the spec: Rc::new — allocate a fresh cell with count 1
and hand back the first handle to it. -/
def rcNew (h : RcHeap) (v : Int) : RcHeap × RcHandle :=
  (h ++ [⟨v, 1⟩], ⟨h.length⟩)

/-- Modelled from the spec: Rc::clone — increment the count of the
aliased cell by 1 and return a new handle to the same cell; the payload
is not copied. -/
def rcClone (h : RcHeap) (hd : RcHandle) : RcHeap × RcHandle :=
  (heapModify h hd.cell (fun c => { c with strong := c.strong + 1 }), ⟨hd.cell⟩)

/-- Modelled from the spec: dropping a handle — decrement the count of
the aliased cell by 1 (the payload is destroyed when it reaches 0). -/
def rcDrop (h : RcHeap) (hd : RcHandle) : RcHeap :=
  heapModify h hd.cell (fun c => { c with strong := c.strong - 1 })

/-- Rc::strong_count through a handle. -/
def strongCount (h : RcHeap) (hd : RcHandle) : Nat :=
  (h.getD hd.cell ⟨0, 0⟩).strong

/-- Rc payload read through a handle (dereferencing). -/
def rcPayload (h : RcHeap) (hd : RcHandle) : Int :=
  (h.getD hd.cell ⟨0, 0⟩).payload

/-- Number of handles in a list of live handles that alias cell i. -/
def liveRefs (hs : List RcHandle) (i : Nat) : Nat :=
  (hs.filter fun hd => hd.cell = i).length

/-- src/22-pointers/pointers.rs lines 80-109, replayed: rc1 = Rc::new(5);
strong_count; inner scope: rc2 = Rc::clone(&rc1); strong_count;
rc3 = rc1.clone(); strong_count; scope end drops rc3 then rc2;
strong_count.  Heap and handles after each step. -/
def rcStep1 : RcHeap × RcHandle := rcNew [] 5

def rc1 : RcHandle := rcStep1.2

def rcStep2 : RcHeap × RcHandle := rcClone rcStep1.1 rc1

def rc2 : RcHandle := rcStep2.2

def rcStep3 : RcHeap × RcHandle := rcClone rcStep2.1 rc1

def rc3 : RcHandle := rcStep3.2

def rcHeapAfterDrops : RcHeap := rcDrop (rcDrop rcStep3.1 rc3) rc2

/-- The four counts the sample prints: after construction, after each of
the two clones, and after the inner scope ends. -/
def rcPrintedCounts : List Nat :=
  [strongCount rcStep1.1 rc1, strongCount rcStep2.1 rc1,
   strongCount rcStep3.1 rc1, strongCount rcHeapAfterDrops rc1]

/-- The live handles at each of the four print points. -/
def rcLiveHandles : List (List RcHandle) :=
  [[rc1], [rc1, rc2], [rc1, rc2, rc3], [rc1]]

/-- Program counter of one of the two spawned threads of the Arc
demonstration: 0 = about to read the count, 1 = about to drop its clone
(closure end), 2 = exited. -/
structure ArcThread where
  pc : Nat
  readValue : Option Nat
deriving Repr, DecidableEq

/-- Global state of the Arc demonstration while the two threads run: the
shared atomic strong count, the shared payload, and both threads. -/
structure ArcState where
  strong : Nat
  payload : Int
  t1 : ArcThread
  t2 : ArcThread
deriving Repr, DecidableEq

/-- Modelled from the spec: one atomic step of one spawned thread.  At
pc 0 the thread reads Arc::strong_count (a snapshot); at pc 1 its moved
clone goes out of scope and atomically decrements the count; a thread
that has exited has no step. -/
def arcThreadStep (t : ArcThread) (strong : Nat) : Option (ArcThread × Nat) :=
  match t.pc with
  | 0 => some (⟨1, some strong⟩, strong)
  | 1 => some (⟨2, t.readValue⟩, strong - 1)
  | _ => none

/-- One interleaving step: false schedules thread 1, true thread 2. -/
def arcStep (tid : Bool) (s : ArcState) : Option ArcState :=
  if tid then
    (arcThreadStep s.t2 s.strong).map fun p => { s with t2 := p.1, strong := p.2 }
  else
    (arcThreadStep s.t1 s.strong).map fun p => { s with t1 := p.1, strong := p.2 }

/-- Run a schedule (a list of thread choices) from a state. -/
def arcRun : List Bool → ArcState → Option ArcState
  | [], s => some s
  | tid :: rest, s => (arcStep tid s).bind (arcRun rest)

/-- src/22-pointers/pointers.rs lines 115-117: arc1 = Arc::new(5);
arc2 = Arc::clone(&arc1); arc3 = arc1.clone().  The resulting strong
count, reusing the counted-allocation model. -/
def arcProlog : RcHeap × RcHandle := rcNew [] 5

def arcAfterClones : RcHeap :=
  (rcClone (rcClone arcProlog.1 arcProlog.2).1 arcProlog.2).1

/-- State at the two thread::spawn calls: arc2 moved into thread 1, arc3
into thread 2, both threads about to run. -/
def arcInit : ArcState :=
  ⟨strongCount arcAfterClones arcProlog.2, rcPayload arcAfterClones arcProlog.2,
   ⟨0, none⟩, ⟨0, none⟩⟩

/-- What the main thread observes after joining both threads under a
given schedule: the count through arc1, the payload through arc1, and the
two values the threads printed.  none for an invalid schedule. -/
def arcOutcome (sched : List Bool) : Option (Nat × Int × Option Nat × Option Nat) :=
  (arcRun sched arcInit).map fun f => (f.strong, f.payload, f.t1.readValue, f.t2.readValue)

/-- A schedule is complete when each thread is scheduled exactly twice
(its read and its clone drop) — exactly the interleavings of the two
spawned threads. -/
def validSched (sched : List Bool) : Prop :=
  sched.length = 4 ∧ (sched.filter id).length = 2

instance (sched : List Bool) : Decidable (validSched sched) := by
  unfold validSched; infer_instance

/-- The amended post-state property of the Arc demonstration, checked on
the outcome of a schedule: both threads exited, the count through arc1 is
back to 1, the payload is still 5, each thread read a snapshot of 2 or 3,
and the thread that read first read 3. -/
def arcPost (o : Option (Nat × Int × Option Nat × Option Nat)) : Bool :=
  match o with
  | some (strong, payload, r1, r2) =>
    strong = 1 && payload = 5 &&
    (r1 = some 3 || r1 = some 2) && (r2 = some 3 || r2 = some 2) &&
    (r1 = some 3 || r2 = some 3)
  | none => false

/-- State of one owned variable: still holding its value, or moved out. -/
inductive OwnState where
  | valid
  | moved
deriving Repr, DecidableEq

/-- Environment of the ownership checker: variable name to state,
innermost binding first. -/
abbrev OwnEnv := List (String × OwnState)

/-- Look a variable up in the environment. -/
def envLookup (env : OwnEnv) (x : String) : Option OwnState :=
  match env with
  | [] => none
  | (y, st) :: rest => if y = x then some st else envLookup rest x

/-- Set the state of the innermost binding of a variable. -/
def envSet (env : OwnEnv) (x : String) (st : OwnState) : OwnEnv :=
  match env with
  | [] => []
  | (y, old) :: rest =>
    if y = x then (y, st) :: rest else (y, old) :: envSet rest x st

/-- Statements of the demonstration drivers, abstracted to what the
ownership discipline sees: binding a fresh owned value, consuming a
variable by value (a move), moving a variable into a fresh binding, and
accessing a variable (by reference or for printing). -/
inductive OwnStmt where
  | bindVal (x : String)
  | moveInto (x : String)
  | moveBind (y x : String)
  | useRef (x : String)
deriving Repr, DecidableEq

/-- Errors of the static checker: an unknown name, or a use of a moved
variable. -/
inductive OwnErr where
  | undefined (x : String)
  | useAfterMove (x : String)
deriving Repr, DecidableEq

/-- Modelled from the spec: the static ownership check of one statement.
Accessing or moving a variable requires it to be defined and not moved;
a move invalidates the source binding. -/
def checkStmt (env : OwnEnv) : OwnStmt → Except OwnErr OwnEnv
  | .bindVal x => .ok ((x, .valid) :: env)
  | .moveInto x =>
    match envLookup env x with
    | none => .error (.undefined x)
    | some .moved => .error (.useAfterMove x)
    | some .valid => .ok (envSet env x .moved)
  | .moveBind y x =>
    match envLookup env x with
    | none => .error (.undefined x)
    | some .moved => .error (.useAfterMove x)
    | some .valid => .ok ((y, .valid) :: envSet env x .moved)
  | .useRef x =>
    match envLookup env x with
    | none => .error (.undefined x)
    | some .moved => .error (.useAfterMove x)
    | some .valid => .ok env

/-- Check a whole program, stopping at the first rejected statement. -/
def checkProg (env : OwnEnv) : List OwnStmt → Except OwnErr OwnEnv
  | [] => .ok env
  | st :: rest => (checkStmt env st).bind fun env' => checkProg env' rest

/-- src/17-ownership/ownership.rs, main, statement by statement up to the
use of s6 (line 40): the moves and borrows of s1-s6.  The println of s6
after takes_ownership(s6) is the use the sample's comment flags as a
compile error. -/
def ownershipProg : List OwnStmt :=
  [.bindVal "s1", .moveBind "s2" "s1",
   .bindVal "s3", .useRef "s3", .useRef "s3",
   .bindVal "s4", .useRef "s4",
   .bindVal "s6", .moveInto "s6", .useRef "s6"]

/-- src/17-ownership/ownership.rs lines 53-55 in isolation: s8 is moved
into takes_and_gives_back (whose return value binds s9) and then printed. -/
def ownershipS8Fragment : List OwnStmt :=
  [.bindVal "s8", .moveBind "s9" "s8", .useRef "s8"]

/-- src/24-pointers/pointers.rs, main, statement by statement up to
line 51: the bindings of x, r1, r2, raw1, raw2, b and rc1, then
rc2 = rc.clone(), which names the undefined variable rc. -/
def pointers24Prog : List OwnStmt :=
  [.bindVal "x", .bindVal "r1", .bindVal "r2", .bindVal "raw1",
   .bindVal "raw2", .bindVal "b", .bindVal "rc1", .useRef "rc"]

/-- C8: amended — divide x y returns Err "Division by zero" exactly when
y = 0; for a nonzero divisor it returns Ok with the quotient truncated
toward zero, except at the single input (i32::MIN, -1), where the
division overflows and the program panics instead of returning. -/
theorem divide_spec_amended (x y : Int) :
    (divide x y = .err "Division by zero" ↔ y = 0) ∧
    (y ≠ 0 → ¬(x = i32Min ∧ y = -1) → divide x y = .ok (Int.tdiv x y)) ∧
    divide i32Min (-1) = .panicked "attempt to divide with overflow" := by
  refine ⟨⟨?_, ?_⟩, ?_, by decide⟩
  · intro h
    by_cases hy : y = 0
    · exact hy
    · exfalso
      simp only [divide, if_neg hy] at h
      by_cases hm : x = i32Min ∧ y = -1
      · rw [if_pos hm] at h
        exact RustResult.noConfusion h
      · rw [if_neg hm] at h
        exact RustResult.noConfusion h
  · intro hy
    simp [divide, hy]
  · intro hy hm
    simp [divide, hy, hm]

/-- Witness for divide_spec_amended at the concrete input (20, 4). -/
theorem divide_spec_amended_witness :
    divide 20 4 = .ok (Int.tdiv 20 4) :=
  (divide_spec_amended 20 4).2.1 (by decide) (by decide)

/-- C8 counterexample: at (i32::MIN, -1) the divisor is nonzero, yet
divide does not return Ok — the i32 quotient 2^31 does not fit in i32 and
the code panics with a division-overflow message. -/
theorem divide_overflow_counterexample :
    divide i32Min (-1) = .panicked "attempt to divide with overflow" ∧
    Int.tdiv i32Min (-1) = 2 ^ 31 ∧ i32Max < 2 ^ 31 ∧ (-1 : Int) ≠ 0 := by
  refine ⟨by decide, by decide, by decide, by decide⟩

/-- C9: multiply a b returns Ok with the exact product exactly when that
product fits in i32, and Err "Integer overflow on multiplication"
otherwise. -/
theorem multiply_spec (a b : Int) :
    (multiply a b = .ok (a * b) ↔ i32Min ≤ a * b ∧ a * b ≤ i32Max) ∧
    (¬(i32Min ≤ a * b ∧ a * b ≤ i32Max) →
      multiply a b = .err "Integer overflow on multiplication") := by
  refine ⟨⟨?_, ?_⟩, ?_⟩
  · intro h
    by_cases hf : i32Min ≤ a * b ∧ a * b ≤ i32Max
    · exact hf
    · exfalso
      simp [multiply, checked_mul, hf] at h
  · intro hf
    simp [multiply, checked_mul, hf]
  · intro hf
    simp [multiply, checked_mul, hf]

/-- Witness for multiply_spec at the overflowing input (65536, 65536). -/
theorem multiply_spec_witness :
    multiply 65536 65536 = .err "Integer overflow on multiplication" :=
  (multiply_spec 65536 65536).2 (by decide)

/-- C10: the error-handling main returns Ok(()): every divide / multiply
call reached through the question-mark operator, let-else, unwrap and
expect takes the success branch, so neither the early error return nor
any panic branch is reached. -/
theorem error_handling_main_ok : errorHandlingMain = .ok () := by decide

/-- C4: the Mutex scenario — construct Mutex(5), lock, increment to 6,
drop the guard, lock again — reads the value 6. -/
theorem mutex_scenario_reads_6 : mutexScenario = some 6 := by decide

/-- C3: amended — the samples are self-contained and take no input, but
not every sample runs: the ownership sample is rejected by the static
ownership check at its deliberate use of s6 after the move, and the
24-pointers sample is rejected at its reference to the undefined name rc;
the 22-pointers RefCell and Mutex demonstrations and the error-handling
main do run to completion with their illustrative values. -/
theorem samples_run_status :
    checkProg [] ownershipProg = .error (.useAfterMove "s6") ∧
    checkProg [] pointers24Prog = .error (.undefined "rc") ∧
    refcell22Scenario = some 6 ∧
    mutexScenario = some 6 ∧
    errorHandlingMain = .ok () := by
  refine ⟨rfl, rfl, by decide, by decide, by decide⟩

/-- C3 counterexample: the ownership sample does not pass the static
check — it is rejected at the use of s6 after its move — so it never runs
to completion. -/
theorem ownership_sample_rejected :
    checkProg [] ownershipProg = .error (.useAfterMove "s6") ∧
    (checkProg [] ownershipProg).isOk = false := by
  refine ⟨rfl, rfl⟩

/-- Modifying the cell at an in-range index is seen by getD at that index. -/
theorem getD_heapModify (h : RcHeap) (f : RcCell → RcCell) (d : RcCell) :
    ∀ i, i < h.length → (heapModify h i f).getD i d = f (h.getD i d) := by
  induction h with
  | nil =>
    intro i hi
    simp at hi
  | cons c t ih =>
    intro i hi
    cases i with
    | zero => simp [heapModify]
    | succ n =>
      simp only [heapModify, List.getD_cons_succ]
      exact ih n (by simpa using hi)

/-- C1: cloning a SharedCounted handle increments the strong count of the
aliased cell by 1, returns a handle to the same cell with the same
payload; dropping a handle decrements the count by 1; and in the
22-pointers trace the printed counts are 1, 2, 3, 1, each equal to the
number of live handles aliasing the cell at that print point, with rc2
and rc3 aliasing rc1's payload 5. -/
theorem rc_clone_drop_counts :
    (∀ (h : RcHeap) (hd : RcHandle), hd.cell < h.length →
      strongCount (rcClone h hd).1 (rcClone h hd).2 = strongCount h hd + 1 ∧
      (rcClone h hd).2.cell = hd.cell ∧
      rcPayload (rcClone h hd).1 (rcClone h hd).2 = rcPayload h hd) ∧
    (∀ (h : RcHeap) (hd : RcHandle), hd.cell < h.length →
      strongCount (rcDrop h hd) hd = strongCount h hd - 1) ∧
    rcPrintedCounts = [1, 2, 3, 1] ∧
    (rcLiveHandles.map fun hs => liveRefs hs rc1.cell) = [1, 2, 3, 1] ∧
    rc2.cell = rc1.cell ∧ rc3.cell = rc1.cell ∧
    rcPayload rcStep3.1 rc1 = 5 := by
  refine ⟨?_, ?_, by decide, by decide, by decide, by decide, by decide⟩
  · intro h hd hi
    have hm := getD_heapModify h (fun c => { c with strong := c.strong + 1 }) ⟨0, 0⟩ hd.cell hi
    refine ⟨?_, rfl, ?_⟩
    · show ((heapModify h hd.cell fun c => { c with strong := c.strong + 1 }).getD
          hd.cell ⟨0, 0⟩).strong = (h.getD hd.cell ⟨0, 0⟩).strong + 1
      rw [hm]
    · show ((heapModify h hd.cell fun c => { c with strong := c.strong + 1 }).getD
          hd.cell ⟨0, 0⟩).payload = (h.getD hd.cell ⟨0, 0⟩).payload
      rw [hm]
  · intro h hd hi
    have hm := getD_heapModify h (fun c => { c with strong := c.strong - 1 }) ⟨0, 0⟩ hd.cell hi
    show ((heapModify h hd.cell fun c => { c with strong := c.strong - 1 }).getD
        hd.cell ⟨0, 0⟩).strong = (h.getD hd.cell ⟨0, 0⟩).strong - 1
    rw [hm]

/-- Witness for rc_clone_drop_counts on the one-cell heap holding 5. -/
theorem rc_clone_drop_counts_witness :
    strongCount (rcClone [RcCell.mk 5 1] ⟨0⟩).1 (rcClone [RcCell.mk 5 1] ⟨0⟩).2
        = strongCount [RcCell.mk 5 1] ⟨0⟩ + 1 ∧
    (rcClone [RcCell.mk 5 1] ⟨0⟩).2.cell = RcHandle.cell ⟨0⟩ ∧
    rcPayload (rcClone [RcCell.mk 5 1] ⟨0⟩).1 (rcClone [RcCell.mk 5 1] ⟨0⟩).2
        = rcPayload [RcCell.mk 5 1] ⟨0⟩ :=
  rc_clone_drop_counts.1 [RcCell.mk 5 1] ⟨0⟩ (by decide)

/-- A step of the borrow state machine never produces a shared state with
index 0: shared indices count live guards and stay positive. -/
theorem cellStep_shared_pos (op : CellOp) (s : BorrowState) (n : Nat)
    (h : cellStep op s = some (.shared n)) : 0 < n := by
  cases op <;> cases s <;> simp [cellStep] at h <;> try omega
  case dropShared.shared m =>
    cases m with
    | zero => simp [cellStep] at h
    | succ k =>
      simp [cellStep] at h
      by_cases hk : k = 0
      · rw [if_pos hk] at h
        exact absurd h (by simp)
      · rw [if_neg hk] at h
        have : k = n := by simpa using h
        omega

/-- Every reachable shared state has a positive guard count. -/
theorem reachable_shared_pos (s : BorrowState) (h : ReachableBorrow s) :
    ∀ n, s = .shared n → 0 < n := by
  induction h with
  | init =>
    intro n hn
    exact absurd hn (by simp)
  | step op s s' _ hstep _ =>
    intro n hn
    rw [hn] at hstep
    exact cellStep_shared_pos op s n hstep

/-- C2: on every reachable borrow state of one InteriorMutable cell,
borrow() fails exactly when the exclusive guard is outstanding and
borrow_mut() fails exactly when any guard is outstanding — so failure
happens at the conflicting call and not earlier — and in particular, in
the 24-pointers trace, borrow() on the fresh cell succeeds and the
borrow_mut() issued while that shared guard is live fails at that call. -/
theorem refcell_borrow_discipline :
    (∀ s : BorrowState, ReachableBorrow s →
      (cellStep .borrow s = none ↔ s = .exclusive) ∧
      (cellStep .borrowMut s = none ↔ 0 < outstandingGuards s)) ∧
    cellStep .borrow .unborrowed = some (.shared 1) ∧
    cellStep .borrowMut (.shared 1) = none := by
  refine ⟨?_, rfl, rfl⟩
  intro s hs
  cases s with
  | unborrowed => simp [cellStep, outstandingGuards]
  | exclusive => simp [cellStep, outstandingGuards]
  | shared n =>
    have hn := reachable_shared_pos _ hs n rfl
    simp [cellStep, outstandingGuards]
    exact hn

/-- Witness for refcell_borrow_discipline at the reachable exclusive
state: borrow() fails there. -/
theorem refcell_borrow_discipline_witness :
    cellStep .borrow .exclusive = none := by
  have hr : ReachableBorrow .exclusive :=
    .step .borrowMut .unborrowed .exclusive .init rfl
  exact ((refcell_borrow_discipline.1 .exclusive hr).1).mpr rfl

/-- C5: the Mutex is a two-state machine — lock() takes Unlocked to
Locked, a guard drop takes Locked back to Unlocked unconditionally (for
every payload), these are the only transitions, and the payload is
writable only while the lock is held. -/
theorem mutex_state_machine :
    (∀ v : Int, mutexStep .lock ⟨.unlocked, v⟩ = some ⟨.locked, v⟩) ∧
    (∀ v : Int, mutexStep .guardDrop ⟨.locked, v⟩ = some ⟨.unlocked, v⟩) ∧
    (∀ (e : MutexEvent) (s s' : MutexState), mutexStep e s = some s' →
      (e = .lock ∧ s.lockState = .unlocked ∧ s' = ⟨.locked, s.payload⟩) ∨
      (e = .guardDrop ∧ s.lockState = .locked ∧ s' = ⟨.unlocked, s.payload⟩)) ∧
    (∀ (f : Int → Int) (s s' : MutexState), guardModify f s = some s' →
      s.lockState = .locked) := by
  refine ⟨fun v => rfl, fun v => rfl, ?_, ?_⟩
  · intro e s s' h
    rcases s with ⟨ls, v⟩
    cases e <;> cases ls <;> simp [mutexStep] at h
    · exact Or.inl ⟨rfl, rfl, h.symm⟩
    · exact Or.inr ⟨rfl, rfl, h.symm⟩
  · intro f s s' h
    rcases s with ⟨ls, v⟩
    cases ls
    · simp [guardModify] at h
    · rfl

/-- Witness for mutex_state_machine: the lock transition from the
unlocked mutex holding 5 is classified as the lock() transition. -/
theorem mutex_state_machine_witness :
    (MutexEvent.lock = MutexEvent.lock ∧
      (MutexState.mk .unlocked 5).lockState = .unlocked ∧
      (MutexState.mk .locked 5) = ⟨.locked, (MutexState.mk .unlocked 5).payload⟩) ∨
    (MutexEvent.lock = .guardDrop ∧
      (MutexState.mk .unlocked 5).lockState = .locked ∧
      (MutexState.mk .locked 5) = ⟨.unlocked, (MutexState.mk .unlocked 5).payload⟩) :=
  mutex_state_machine.2.2.1 .lock ⟨.unlocked, 5⟩ ⟨.locked, 5⟩ rfl

/-- C6: amended — after constructing AtomicSharedCounted(5) and cloning
twice the count is 3; under every interleaving of the two spawned threads
each thread reads a snapshot of 3 or 2 (3 for whichever thread reads
first, 2 if the other thread already dropped its clone), and after both
threads join the count through the original handle is 1 and the payload
is still 5. -/
theorem arc_scenario_amended :
    arcInit.strong = 3 ∧
    ∀ sched : List Bool, validSched sched → arcPost (arcOutcome sched) = true := by
  refine ⟨rfl, ?_⟩
  intro sched hv
  obtain ⟨hlen, hcnt⟩ := hv
  rcases sched with _ | ⟨a, _ | ⟨b, _ | ⟨c, _ | ⟨d, rest⟩⟩⟩⟩
  · simp at hlen
  · simp at hlen
  · simp at hlen
  · simp at hlen
  · have h0 : rest = [] := by
      have h1 : rest.length = 0 := by
        rw [List.length_cons, List.length_cons, List.length_cons,
          List.length_cons] at hlen
        omega
      exact List.length_eq_zero.mp h1
    subst h0
    revert hcnt
    cases a <;> cases b <;> cases c <;> cases d <;> decide

/-- Witness for arc_scenario_amended at the alternating schedule, where
both threads read 3. -/
theorem arc_scenario_amended_witness :
    arcPost (arcOutcome [false, true, false, true]) = true :=
  arc_scenario_amended.2 [false, true, false, true] (by decide)

/-- C6 counterexample: under the schedule that runs thread 1 to
completion first, thread 2 reads the count as 2, not 3 — the claim that
each thread reads 3 fails, while the joined state still shows count 1 and
payload 5. -/
theorem arc_second_thread_reads_two :
    arcOutcome [false, false, true, true] = some (1, 5, some 3, some 2) := by
  decide

/-- Setting a bound variable's state is seen by lookup. -/
theorem envLookup_envSet (env : OwnEnv) (x : String) (st : OwnState)
    (h : ∃ st0, envLookup env x = some st0) :
    envLookup (envSet env x st) x = some st := by
  induction env with
  | nil =>
    obtain ⟨st0, h0⟩ := h
    simp [envLookup] at h0
  | cons p rest ih =>
    obtain ⟨st0, h0⟩ := h
    rcases p with ⟨y, st1⟩
    by_cases hx : y = x
    · simp [envLookup, envSet, hx]
    · simp only [envLookup, envSet, if_neg hx] at h0 ⊢
      exact ih ⟨st0, h0⟩

/-- C7: accessing or moving a variable whose value has been moved out is
always rejected with a use-after-move error, a successful move marks the
source binding moved, and the two moved-value accesses of the ownership
sample (the prints of s6 and s8) are both rejected by the static check. -/
theorem owner_use_after_move :
    (∀ (env : OwnEnv) (x : String), envLookup env x = some .moved →
      checkStmt env (.useRef x) = .error (.useAfterMove x) ∧
      checkStmt env (.moveInto x) = .error (.useAfterMove x)) ∧
    (∀ (env env' : OwnEnv) (x : String), checkStmt env (.moveInto x) = .ok env' →
      envLookup env' x = some .moved) ∧
    checkProg [] ownershipProg = .error (.useAfterMove "s6") ∧
    checkProg [] ownershipS8Fragment = .error (.useAfterMove "s8") := by
  refine ⟨?_, ?_, rfl, rfl⟩
  · intro env x h
    constructor <;> simp [checkStmt, h]
  · intro env env' x h
    rcases hl : envLookup env x with _ | st
    · rw [checkStmt, hl] at h
      exact absurd h (by simp)
    · cases st with
      | moved =>
        rw [checkStmt, hl] at h
        exact absurd h (by simp)
      | valid =>
        rw [checkStmt, hl] at h
        have henv : env' = envSet env x .moved := by
          simpa using h.symm
        rw [henv]
        exact envLookup_envSet env x .moved ⟨.valid, hl⟩

/-- Witness for owner_use_after_move in the environment where s6 is
moved. -/
theorem owner_use_after_move_witness :
    checkStmt [("s6", OwnState.moved)] (.useRef "s6")
        = .error (.useAfterMove "s6") ∧
    checkStmt [("s6", OwnState.moved)] (.moveInto "s6")
        = .error (.useAfterMove "s6") :=
  owner_use_after_move.1 [("s6", OwnState.moved)] "s6" (by decide)

end RustByExample
